import Mathlib

/-!
Verification development for the Greenlight movie-catalog API
(`greenlight.andreyklimov.net`): a shallow embedding of the data layer
(`internal/data`) and the HTTP handlers and middleware (`cmd/api`),
with theorems about validation, optimistic locking, pagination,
rate limiting and panic recovery.

Machine integers of the Go source (`int`, `int32`, `int64`) are modelled
as `Int`; the quantities involved (years, runtimes, page numbers,
version counters) never approach the overflow boundary in the properties
below, and the source performs no wrap-around arithmetic on them.
-/

namespace Greenlight

/-- `data.Movie` (internal/data/movies.go). `Genres` is a Go slice that can
be `nil`, modelled as `Option (List String)` with `none` for `nil`;
`CreatedAt` is an opaque timestamp. The version number starts at 1 and is
incremented each time the movie information is updated. -/
structure Movie where
  id        : Int
  createdAt : Nat
  title     : String
  year      : Int
  runtime   : Int
  genres    : Option (List String)
  version   : Nat
  deriving Repr, DecidableEq

/-- Modelled from the spec: the `internal/validator` package is not under
src/ (only its callers are). A validator accumulates keyed error messages;
`AddError` adds a message only when the key is not already present, and
`Valid` holds exactly when no errors were recorded. -/
structure Validator where
  errors : List (String × String)
  deriving Repr, DecidableEq

/-- Modelled from the spec: `validator.New` returns a validator with an
empty error map. -/
def Validator.new : Validator := ⟨[]⟩

/-- Modelled from the spec: `Validator.AddError` records a message for a key
unless that key already has one. -/
def Validator.addError (v : Validator) (key message : String) : Validator :=
  if v.errors.any (fun e => e.1 == key) then v
  else ⟨v.errors ++ [(key, message)]⟩

/-- Modelled from the spec: `Validator.Check` records the error message for
the key when the condition is false. -/
def Validator.check (v : Validator) (ok : Bool) (key message : String) :
    Validator :=
  if ok then v else v.addError key message

/-- Modelled from the spec: `Validator.Valid` holds when no errors were
recorded. -/
def Validator.valid (v : Validator) : Bool := v.errors.isEmpty

/-- Modelled from the spec: `validator.PermittedValue` checks membership of
a value in a list of permitted values. -/
def permittedValue (value : String) (permitted : List String) : Bool :=
  permitted.contains value

/-- Modelled from the spec: `validator.Unique` holds when the slice has no
duplicate values. -/
def unique (values : List String) : Bool := decide values.Nodup

/-- Go `len` of a possibly-`nil` slice: `len(nil) = 0`. -/
def goLen (xs : Option (List String)) : Nat := (xs.getD []).length

/-- `data.ValidateMovie` (internal/data/movies.go, part_007 lines 219-231).
The Go source compares the year against `time.Now().Year()`; the current
year is passed here as the explicit parameter `currentYear`. Title length
is the Go byte length of the string. -/
def ValidateMovie (currentYear : Int) (v : Validator) (movie : Movie) :
    Validator :=
  ((((((((((v.check (decide (movie.title ≠ "")) "title" "must be provided"
    ).check (decide (movie.title.utf8ByteSize ≤ 500)) "title"
        "must not be more than 500 bytes long"
    ).check (decide (movie.year ≠ 0)) "year" "must be provided"
    ).check (decide (movie.year ≥ 1888)) "year" "must be greater than 1888"
    ).check (decide (movie.year ≤ currentYear)) "year"
        "must not be in the future"
    ).check (decide (movie.runtime ≠ 0)) "runtime" "must be provided"
    ).check (decide (movie.runtime > 0)) "runtime"
        "must be a positive integer"
    ).check movie.genres.isSome "genres" "must be provided"
    ).check (decide (goLen movie.genres ≥ 1)) "genres"
        "must contain at least 1 genre"
    ).check (decide (goLen movie.genres ≤ 5)) "genres"
        "must not contain more than 5 genres"
    ).check (unique (movie.genres.getD [])) "genres"
        "must not contain duplicate values"

/-- `data.Filters` (internal/data/filters.go, part_002). -/
structure Filters where
  page         : Int
  pageSize     : Int
  sort         : String
  sortSafelist : List String
  deriving Repr, DecidableEq

/-- `Filters.limit` (part_002 lines 15-17). -/
def Filters.limit (f : Filters) : Int := f.pageSize

/-- `Filters.offset` (part_002 lines 18-20). -/
def Filters.offset (f : Filters) : Int := (f.page - 1) * f.pageSize

/-- `strings.HasPrefix(s, "-")`: whether the first character is `'-'`. -/
def hasLeadingMinus (s : String) : Bool :=
  match s.data with
  | [] => false
  | c :: _ => c == '-'

/-- `strings.TrimPrefix(s, "-")`: removes one leading `"-"` when present. -/
def trimLeadingMinus (s : String) : String :=
  if hasLeadingMinus s then String.mk s.data.tail else s

/-- `Filters.sortColumn` (part_002 lines 24-31): scans the safelist for the
sort value and strips a leading `"-"`; the Go source panics when the value
is not in the safelist, modelled as `none`. -/
def Filters.sortColumn (f : Filters) : Option String :=
  if f.sortSafelist.any (fun safeValue => f.sort == safeValue) then
    some (trimLeadingMinus f.sort)
  else
    none

/-- `Filters.sortDirection` (part_002 lines 35-40). -/
def Filters.sortDirection (f : Filters) : String :=
  if hasLeadingMinus f.sort then "DESC" else "ASC"

/-- `data.ValidateFilters` (part_002 lines 42-51). -/
def ValidateFilters (v : Validator) (f : Filters) : Validator :=
  ((((v.check (decide (f.page > 0)) "page" "must be greater than zero"
    ).check (decide (f.page ≤ 10000000)) "page"
        "must be a maximum of 10 million"
    ).check (decide (f.pageSize > 0)) "page_size"
        "must be greater than zero"
    ).check (decide (f.pageSize ≤ 100)) "page_size"
        "must be a maximum of 100"
    ).check (permittedValue f.sort f.sortSafelist) "sort"
        "invalid sort value"

/-- Errors returned by the data layer (`internal/data/models.go` declares
`ErrRecordNotFound`; `ErrEditConflict` is declared alongside it). -/
inductive ModelErr where
  | recordNotFound
  | editConflict
  deriving Repr, DecidableEq

/-- The movies table, modelled as the list of its rows. -/
abbrev DB := List Movie

/-- Insertion step of the `ORDER BY id` sort. -/
def insertById (m : Movie) : List Movie → List Movie
  | [] => [m]
  | x :: xs => if m.id ≤ x.id then m :: x :: xs else x :: insertById m xs

/-- `SELECT ... ORDER BY id`: the rows sorted by ascending id. -/
def orderById : List Movie → List Movie
  | [] => []
  | x :: xs => insertById x (orderById xs)

namespace MovieModel

/-- Modelled from the spec: the movies table column defaults (the migration
SQL is not under src/) — `id` is drawn from the `bigserial` sequence,
`created_at` is the insertion time, and `version` defaults to 1, as the
`Movie` struct documents ("The version number starts at 1"). The stored row
carries exactly the title, year, runtime and genres passed to INSERT. -/
def insertDefaults (nextId : Int) (now : Nat) (movie : Movie) : Movie :=
  { movie with id := nextId, createdAt := now, version := 1 }

/-- `MovieModel.Insert` (part_007 lines 17-30): INSERT with
`RETURNING id, created_at, version` scanned back into the struct. Returns
the new table and the updated struct. -/
def Insert (db : DB) (nextId : Int) (now : Nat) (movie : Movie) :
    DB × Movie :=
  (db ++ [insertDefaults nextId now movie], insertDefaults nextId now movie)

/-- `MovieModel.Get` (part_007 lines 32-66): an id below 1 short-circuits to
`ErrRecordNotFound` before any query; otherwise `QueryRowContext` scans the
first row with this id, with `sql.ErrNoRows` mapped to `ErrRecordNotFound`.
The second component counts the SQL queries issued. -/
def Get (db : DB) (id : Int) : Except ModelErr Movie × Nat :=
  if id < 1 then (.error .recordNotFound, 0)
  else
    match db.find? (fun r => r.id == id) with
    | none => (.error .recordNotFound, 1)
    | some r => (.ok r, 1)

/-- The row produced by `SET title = $1, year = $2, runtime = $3,
genres = $4, version = version + 1` on a matched row. -/
def updatedRow (movie : Movie) (r : Movie) : Movie :=
  { r with title := movie.title, year := movie.year,
           runtime := movie.runtime, genres := movie.genres,
           version := r.version + 1 }

/-- `MovieModel.Update` (part_007 lines 68-98): UPDATE with
`WHERE id = $5 AND version = $6` and `RETURNING version`; when no row
matches, `Scan` yields `sql.ErrNoRows`, mapped to `ErrEditConflict`. On
success the returned struct carries the new version scanned back. -/
def Update (db : DB) (movie : Movie) : DB × Except ModelErr Movie :=
  let matchesRow := fun (r : Movie) => r.id == movie.id && r.version == movie.version
  let db2 := db.map (fun r => if matchesRow r then updatedRow movie r else r)
  match db.find? matchesRow with
  | none => (db2, .error .editConflict)
  | some r => (db2, .ok { movie with version := r.version + 1 })

/-- `MovieModel.Delete` (part_007 lines 100-125): an id below 1
short-circuits to `ErrRecordNotFound` before any query; otherwise DELETE
`WHERE id = $1`, returning `ErrRecordNotFound` exactly when
`RowsAffected()` is 0. Components: new table, result, queries issued. -/
def Delete (db : DB) (id : Int) : DB × Except ModelErr Unit × Nat :=
  if id < 1 then (db, .error .recordNotFound, 0)
  else
    let rowsAffected := db.countP (fun r => r.id == id)
    let db2 := db.filter (fun r => !(r.id == id))
    if rowsAffected == 0 then (db2, .error .recordNotFound, 1)
    else (db2, .ok (), 1)

/-- `MovieModel.GetAll` (part_007 lines 129-184): the query is
`SELECT id, created_at, title, year, runtime, genres, version FROM movies
ORDER BY id` — the `title`, `genres` and `filters` parameters are accepted
but not used ("Хотя мы пока не используем их"). -/
def GetAll (db : DB) (title : String) (genres : List String)
    (filters : Filters) : Except ModelErr (List Movie) :=
  .ok (orderById db)

end MovieModel

/-- The digit characters used by `strconv.FormatInt`:
`"0123456789abcdefghijklmnopqrstuv"` for base 32 ('0' is code 48,
'a' is code 97). -/
def digitChar (d : Nat) : Char :=
  if d < 10 then Char.ofNat (48 + d) else Char.ofNat (87 + d)

/-- Little-endian base-32 digit values of a natural number (the digits of
`strconv.FormatInt(n, 32)`, least significant first). -/
def digitsRev32 (n : Nat) : List Nat :=
  if h : n < 32 then [n]
  else n % 32 :: digitsRev32 (n / 32)
termination_by n
decreasing_by exact Nat.div_lt_self (by omega) (by omega)

/-- Little-endian base-10 digit values of a natural number. -/
def digitsRev10 (n : Nat) : List Nat :=
  if h : n < 10 then [n]
  else n % 10 :: digitsRev10 (n / 10)
termination_by n
decreasing_by exact Nat.div_lt_self (by omega) (by omega)

/-- `strconv.FormatInt(int64(n), 32)` for a non-negative value: the base-32
representation with digits 0-9 then a-v. -/
def formatBase32 (n : Nat) : String :=
  String.mk ((digitsRev32 n).reverse.map digitChar)

/-- The decimal string for a non-negative value (what
`strconv.FormatInt(int64(n), 10)` or a client writing the version in
decimal produces). -/
def formatBase10 (n : Nat) : String :=
  String.mk ((digitsRev10 n).reverse.map digitChar)

/-- Bodies of the JSON responses the handlers write. -/
inductive ResponseBody where
  | movieEnvelope (m : Movie)
  | messageEnvelope (msg : String)
  | inputEcho (title : String) (genres : List String) (filters : Filters)
  | validationErrors (errors : List (String × String))
  | notFoundMsg
  | badRequestMsg
  | editConflictMsg
  | serverErrorMsg
  | rateLimitMsg
  deriving Repr, DecidableEq

/-- An HTTP response: status code, headers and JSON body. -/
structure HttpResponse where
  status  : Nat
  headers : List (String × String)
  body    : ResponseBody
  deriving Repr, DecidableEq

/-- Modelled from the spec: the structured JSON error helpers in
cmd/api/errors.go are not under src/ (only their callers are).
`notFoundResponse` sends 404 Not Found. -/
def notFoundResponse : HttpResponse := ⟨404, [], .notFoundMsg⟩

/-- Modelled from the spec: `badRequestResponse` (cmd/api/errors.go, not
under src/) sends 400 Bad Request. -/
def badRequestResponse : HttpResponse := ⟨400, [], .badRequestMsg⟩

/-- Modelled from the spec: `failedValidationResponse` (cmd/api/errors.go,
not under src/) sends 422 Unprocessable Entity with the validator's
errors. -/
def failedValidationResponse (errors : List (String × String)) :
    HttpResponse := ⟨422, [], .validationErrors errors⟩

/-- Modelled from the spec: `editConflictResponse` (cmd/api/errors.go, not
under src/) sends the edit-conflict response (409 Conflict). -/
def editConflictResponse : HttpResponse := ⟨409, [], .editConflictMsg⟩

/-- Modelled from the spec: `serverErrorResponse` (cmd/api/errors.go, not
under src/) sends 500 Internal Server Error. -/
def serverErrorResponse : HttpResponse := ⟨500, [], .serverErrorMsg⟩

/-- Modelled from the spec: `rateLimitExceededResponse` (cmd/api/errors.go,
not under src/) sends the rate-limit-exceeded response (429 Too Many
Requests). -/
def rateLimitExceededResponse : HttpResponse := ⟨429, [], .rateLimitMsg⟩

/-- Modelled from the spec: `readIDParam` (cmd/api/helpers.go, not under
src/) parses the `:id` URL parameter, failing for values that are absent,
non-numeric or below 1. The already-parsed parameter is passed as
`Option Int` with `none` for an absent or non-numeric value. -/
def readIDParam (idParam : Option Int) : Except Unit Int :=
  match idParam with
  | none => .error ()
  | some id => if id < 1 then .error () else .ok id

/-- The JSON body accepted by `updateMovieHandler` (part_009 lines
120-126): pointer fields, `none` when the key is absent. -/
structure UpdateInput where
  title   : Option String
  year    : Option Int
  runtime : Option Int
  genres  : Option (List String)
  deriving Repr, DecidableEq

/-- Field merge of `updateMovieHandler` (part_009 lines 141-154): each
input field present replaces the movie's field. -/
def applyUpdateInput (input : UpdateInput) (movie : Movie) : Movie :=
  { movie with
      title := input.title.getD movie.title,
      year := input.year.getD movie.year,
      runtime := input.runtime.getD movie.runtime,
      genres := match input.genres with
                | some g => some g
                | none => movie.genres }

/-- `updateMovieHandler` (part_009 lines 91-179). Arguments: the current
year (for validation), the movies table as of the handler's `Get` call
(`dbGet`), the movies table as of its `Update` call (`dbUpd` — it differs
from `dbGet` exactly when a concurrent request committed in the race
window between the two queries), the parsed `:id` parameter, the
`X-Expected-Version` header (`""` when absent, as Go's `Header.Get`
returns), and the decoded JSON body (`Except.error` for malformed JSON).
Returns the table after the request and the response. -/
def updateMovieHandler (currentYear : Int) (dbGet dbUpd : DB)
    (idParam : Option Int) (xExpectedVersion : String)
    (body : Except Unit UpdateInput) : DB × HttpResponse :=
  match readIDParam idParam with
  | .error _ => (dbUpd, notFoundResponse)
  | .ok id =>
    match (MovieModel.Get dbGet id).1 with
    | .error .recordNotFound => (dbUpd, notFoundResponse)
    | .error _ => (dbUpd, serverErrorResponse)
    | .ok movie =>
      if xExpectedVersion ≠ "" ∧
          formatBase32 movie.version ≠ xExpectedVersion then
        (dbUpd, editConflictResponse)
      else
        match body with
        | .error _ => (dbUpd, badRequestResponse)
        | .ok input =>
          let movie2 := applyUpdateInput input movie
          let v := ValidateMovie currentYear Validator.new movie2
          if v.valid then
            match MovieModel.Update dbUpd movie2 with
            | (db2, .ok m) => (db2, ⟨200, [], .movieEnvelope m⟩)
            | (db2, .error .editConflict) => (db2, editConflictResponse)
            | (db2, .error _) => (db2, serverErrorResponse)
          else (dbUpd, failedValidationResponse v.errors)

/-- The JSON body accepted by `createMovieHandler` (part_009 lines
15-20). -/
structure CreateInput where
  title   : String
  year    : Int
  runtime : Int
  genres  : Option (List String)
  deriving Repr, DecidableEq

/-- The movie struct built by `createMovieHandler` (part_009 lines 31-36)
from the decoded input; id, created_at and version are zero values until
`Insert` fills them. -/
def movieFromCreateInput (input : CreateInput) : Movie :=
  { id := 0, createdAt := 0, title := input.title, year := input.year,
    runtime := input.runtime, genres := input.genres, version := 0 }

/-- `createMovieHandler` (part_009 lines 13-64), continued: decode the
body, build the movie struct, validate, insert, answer 201 Created with a
Location header. -/
def createMovieHandler (currentYear : Int) (db : DB) (nextId : Int)
    (now : Nat) (body : Except Unit CreateInput) : DB × HttpResponse :=
  match body with
  | .error _ => (db, badRequestResponse)
  | .ok input =>
    let movie := movieFromCreateInput input
    let v := ValidateMovie currentYear Validator.new movie
    if v.valid then
      let (db2, m) := MovieModel.Insert db nextId now movie
      (db2, ⟨201, [("Location", "/v1/movies/" ++ toString m.id)],
             .movieEnvelope m⟩)
    else (db, failedValidationResponse v.errors)

/-- `deleteMovieHandler` (part_009 lines 181-207). -/
def deleteMovieHandler (db : DB) (idParam : Option Int) :
    DB × HttpResponse :=
  match readIDParam idParam with
  | .error _ => (db, notFoundResponse)
  | .ok id =>
    match MovieModel.Delete db id with
    | (db2, .ok _, _) =>
      (db2, ⟨200, [], .messageEnvelope "movie deleted successfuly"⟩)
    | (db2, .error .recordNotFound, _) => (db2, notFoundResponse)
    | (db2, .error _, _) => (db2, serverErrorResponse)

/-- The query string of a list request: the raw values of the parameters
the handler reads, `none` when omitted. -/
structure QueryString where
  title    : Option String
  genres   : Option String
  page     : Option String
  pageSize : Option String
  sort     : Option String
  deriving Repr, DecidableEq

/-- Modelled from the spec: `readString` (cmd/api/helpers.go, not under
src/) returns the query-string value or the default when omitted. -/
def readString (value : Option String) (defaultValue : String) : String :=
  value.getD defaultValue

/-- Modelled from the spec: `readCSV` (cmd/api/helpers.go, not under src/)
splits the query-string value on commas, or returns the default when
omitted. -/
def readCSV (value : Option String) (defaultValue : List String) :
    List String :=
  match value with
  | none => defaultValue
  | some s => s.splitOn ","

/-- Decimal digits to a number, accumulator style; `none` on the first
non-digit character. -/
def digitsToNat (acc : Nat) : List Char → Option Nat
  | [] => some acc
  | c :: cs =>
    if c.isDigit then digitsToNat (acc * 10 + (c.toNat - 48)) cs else none

/-- Modelled from the spec: `strconv.Atoi` — an optional sign followed by
at least one decimal digit; anything else fails. -/
def goAtoi (s : String) : Option Int :=
  match s.data with
  | [] => none
  | '-' :: cs =>
    match cs with
    | [] => none
    | _ => (digitsToNat 0 cs).map (fun n => -(n : Int))
  | '+' :: cs =>
    match cs with
    | [] => none
    | _ => (digitsToNat 0 cs).map (fun n => (n : Int))
  | cs => (digitsToNat 0 cs).map (fun n => (n : Int))

/-- Modelled from the spec: `readInt` (cmd/api/helpers.go, not under src/)
parses the query-string value as an integer, returning the default when the
parameter is omitted, and recording a validator error (and returning the
default) when it does not parse. -/
def readInt (value : Option String) (defaultValue : Int) (v : Validator)
    (key : String) : Int × Validator :=
  match value with
  | none => (defaultValue, v)
  | some s =>
    match goAtoi s with
    | some n => (n, v)
    | none => (defaultValue, v.addError key "must be an integer value")

/-- The sort safelist of the list endpoint (part_009 line 473). -/
def movieSortSafelist : List String :=
  ["id", "title", "year", "runtime", "-id", "-title", "-year", "-runtime"]

/-- The query-string parsing of `listMoviesHandler` (part_009 lines
465-473): title defaults to `""`, genres to `[]`, page to 1, page_size to
20 and sort to `"id"`; the safelist is installed on the filters. Returns
the parsed input and the validator after any `readInt` errors. -/
def listMoviesInput (qs : QueryString) :
    (String × List String × Filters) × Validator :=
  let v0 := Validator.new
  let title := readString qs.title ""
  let genres := readCSV qs.genres []
  let (page, v1) := readInt qs.page 1 v0 "page"
  let (pageSize, v2) := readInt qs.pageSize 20 v1 "page_size"
  let sort := readString qs.sort "id"
  ((title, genres,
    { page := page, pageSize := pageSize, sort := sort,
      sortSafelist := movieSortSafelist }), v2)

/-- `listMoviesHandler` (part_009 lines 459-480): reads title, genres,
page, page_size and sort with defaults, validates the filters, and on
success writes the parsed input back with `fmt.Fprintf` — it performs no
database access. -/
def listMoviesHandler (qs : QueryString) : HttpResponse :=
  let parsed := listMoviesInput qs
  let title := parsed.1.1
  let genres := parsed.1.2.1
  let filters := parsed.1.2.2
  let v3 := ValidateFilters parsed.2 filters
  if v3.valid then ⟨200, [], .inputEcho title genres filters⟩
  else failedValidationResponse v3.errors

/-- The outcome of running an HTTP handler on a request: either a written
response or a Go panic carrying a message. -/
inductive HandlerResult where
  | done (r : HttpResponse)
  | panicked (msg : String)
  deriving Repr, DecidableEq

/-- `recoverPanic` (part_008 lines 9-31): a deferred `recover()` turns a
panic of the wrapped handler into a response with the `Connection: close`
header set and the 500 server-error body; a normal outcome passes through
unchanged. `α` is the type of requests. -/
def recoverPanic {α : Type} (next : α → HandlerResult) (req : α) :
    HandlerResult :=
  match next req with
  | .done r => .done r
  | .panicked _ =>
    .done { serverErrorResponse with
              headers := ("Connection", "close") :: serverErrorResponse.headers }

/-- Modelled from the spec: `rate.Limiter` from golang.org/x/time/rate (an
external dependency, not repository code) is a token bucket: it holds at
most `burst` tokens and refills at `ratePerSec` tokens per second. -/
structure RateLimiter where
  ratePerSec : ℚ
  burst      : ℚ
  tokens     : ℚ
  deriving DecidableEq

/-- Modelled from the spec: `rate.NewLimiter(r, b)` creates a limiter whose
bucket is initially full. -/
def RateLimiter.mkNew (r b : ℚ) : RateLimiter := ⟨r, b, b⟩

/-- Modelled from the spec: the limiter's bucket refills at `ratePerSec`
tokens per second up to `burst` as time advances by `dt` seconds. -/
def RateLimiter.advance (l : RateLimiter) (dt : ℚ) : RateLimiter :=
  { l with tokens := min l.burst (l.tokens + l.ratePerSec * max dt 0) }

/-- Modelled from the spec: `Limiter.Allow` consumes one token and reports
`true` when a token is available, and reports `false` (the bucket is empty)
otherwise. -/
def RateLimiter.allow (l : RateLimiter) : Bool × RateLimiter :=
  if 1 ≤ l.tokens then (true, { l with tokens := l.tokens - 1 })
  else (false, l)

/-- The limiter created by `rateLimit` (part_008 line 36):
`rate.NewLimiter(2, 4)` — 2 requests per second on average, bursts of at
most 4. -/
def apiRateLimiter : RateLimiter := RateLimiter.mkNew 2 4

/-- One request through the `rateLimit` middleware (part_008 lines 39-49):
when `limiter.Allow()` is false the rate-limit-exceeded response is sent
and the wrapped handler is not called; otherwise the request is
forwarded. -/
def rateLimit {α : Type} (next : α → HandlerResult) (l : RateLimiter)
    (req : α) : RateLimiter × HandlerResult :=
  let (ok, l2) := l.allow
  if ok then (l2, next req) else (l2, .done rateLimitExceededResponse)

/-- A whole request trace through the middleware: the closure returned by
`rateLimit` captures one limiter shared by every request the server
receives, regardless of client. Each trace entry is the time gap (seconds)
since the previous request, and the request. -/
def rateLimitServe {α : Type} (next : α → HandlerResult) :
    RateLimiter → List (ℚ × α) → RateLimiter × List HandlerResult
  | l, [] => (l, [])
  | l, (dt, req) :: rest =>
    let l1 := l.advance dt
    let (l2, res) := rateLimit next l1 req
    let (l3, results) := rateLimitServe next l2 rest
    (l3, res :: results)

theorem addError_errors_ne_nil (v : Validator) (key message : String)
    (h : v.errors ≠ []) : (v.addError key message).errors ≠ [] := by
  unfold Validator.addError
  split
  · exact h
  · simp

theorem check_valid_iff (v : Validator) (ok : Bool) (key message : String) :
    (v.check ok key message).errors = [] ↔ v.errors = [] ∧ ok = true := by
  unfold Validator.check
  cases ok with
  | true => simp
  | false =>
    simp only [Bool.false_eq_true, and_false, iff_false]
    intro hcontra
    rcases hv : v.errors with _ | ⟨e, es⟩
    · unfold Validator.addError at hcontra
      rw [hv] at hcontra
      simp at hcontra
    · exact addError_errors_ne_nil v key message (by rw [hv]; simp) hcontra

theorem valid_iff_errors_nil (v : Validator) :
    v.valid = true ↔ v.errors = [] := by
  unfold Validator.valid
  cases v with
  | mk errors => cases errors <;> simp

theorem ValidateMovie_valid_iff (currentYear : Int) (m : Movie) :
    (ValidateMovie currentYear Validator.new m).valid = true ↔
      (m.title ≠ "" ∧ m.title.utf8ByteSize ≤ 500 ∧
       m.year ≠ 0 ∧ 1888 ≤ m.year ∧ m.year ≤ currentYear ∧
       m.runtime ≠ 0 ∧ 0 < m.runtime ∧
       m.genres.isSome = true ∧ 1 ≤ goLen m.genres ∧ goLen m.genres ≤ 5 ∧
       (m.genres.getD []).Nodup) := by
  unfold ValidateMovie
  rw [valid_iff_errors_nil]
  simp only [check_valid_iff, unique, Validator.new, decide_eq_true_eq]
  tauto

theorem ValidateFilters_valid_iff (f : Filters) :
    (ValidateFilters Validator.new f).valid = true ↔
      (0 < f.page ∧ f.page ≤ 10000000 ∧
       0 < f.pageSize ∧ f.pageSize ≤ 100 ∧
       f.sort ∈ f.sortSafelist) := by
  unfold ValidateFilters
  rw [valid_iff_errors_nil]
  simp only [check_valid_iff, permittedValue, Validator.new,
    decide_eq_true_eq, List.elem_iff]
  tauto

theorem listMoviesInput_eq (qs : QueryString) :
    listMoviesInput qs =
      ((readString qs.title "", readCSV qs.genres [],
        { page := (readInt qs.page 1 Validator.new "page").1,
          pageSize := (readInt qs.pageSize 20
              (readInt qs.page 1 Validator.new "page").2 "page_size").1,
          sort := readString qs.sort "id",
          sortSafelist := movieSortSafelist }),
       (readInt qs.pageSize 20
          (readInt qs.page 1 Validator.new "page").2 "page_size").2) := by
  unfold listMoviesInput
  rcases hp : readInt qs.page 1 Validator.new "page" with ⟨page, v1⟩
  rcases hs : readInt qs.pageSize 20 v1 "page_size" with ⟨pageSize, v2⟩
  simp [hp, hs]

/-- C4: the validation helper checks required fields and ranges: for every
movie, `ValidateMovie` leaves the validator with no errors (`v.Valid()`
true) exactly when the title is non-empty and at most 500 bytes long, the
year is non-zero, at least 1888 and not after the current year, the runtime
is non-zero and strictly positive, and genres is non-nil with between 1 and
5 entries and no duplicate values; on any failure the create and update
handlers send the failed-validation response and do not touch the store. -/
theorem claim_C4_validateMovie :
    (∀ (currentYear : Int) (m : Movie),
        (ValidateMovie currentYear Validator.new m).valid = true ↔
          (m.title ≠ "" ∧ m.title.utf8ByteSize ≤ 500 ∧
           m.year ≠ 0 ∧ 1888 ≤ m.year ∧ m.year ≤ currentYear ∧
           m.runtime ≠ 0 ∧ 0 < m.runtime ∧
           m.genres.isSome = true ∧
           1 ≤ goLen m.genres ∧ goLen m.genres ≤ 5 ∧
           (m.genres.getD []).Nodup)) ∧
    (∀ (currentYear : Int) (db : DB) (nextId : Int) (now : Nat)
        (input : CreateInput),
        (ValidateMovie currentYear Validator.new
            (movieFromCreateInput input)).valid = false →
        createMovieHandler currentYear db nextId now (.ok input) =
          (db, failedValidationResponse
                 (ValidateMovie currentYear Validator.new
                     (movieFromCreateInput input)).errors)) ∧
    (∀ (currentYear : Int) (dbGet dbUpd : DB) (idParam : Option Int)
        (xv : String) (input : UpdateInput) (id : Int) (movie : Movie),
        readIDParam idParam = .ok id →
        (MovieModel.Get dbGet id).1 = .ok movie →
        ¬(xv ≠ "" ∧ formatBase32 movie.version ≠ xv) →
        (ValidateMovie currentYear Validator.new
            (applyUpdateInput input movie)).valid = false →
        updateMovieHandler currentYear dbGet dbUpd idParam xv (.ok input) =
          (dbUpd, failedValidationResponse
                 (ValidateMovie currentYear Validator.new
                     (applyUpdateInput input movie)).errors)) := by
  refine ⟨ValidateMovie_valid_iff, ?_, ?_⟩
  · intro currentYear db nextId now input h
    simp only [createMovieHandler, h, Bool.false_eq_true, if_false]
  · intro currentYear dbGet dbUpd idParam xv input id movie h1 h2 h3 h4
    simp only [updateMovieHandler, h1, h2, if_neg h3, h4,
      Bool.false_eq_true, if_false]

/-- Concrete movie used in witnesses: a valid record. -/
def exMovie : Movie :=
  { id := 1, createdAt := 0, title := "Casablanca", year := 1942,
    runtime := 102, genres := some ["drama", "romance", "war"],
    version := 1 }

/-- Concrete create input with an empty title (fails validation). -/
def exBadCreate : CreateInput :=
  { title := "", year := 1942, runtime := 102, genres := some ["drama"] }

/-- Concrete update input setting a negative runtime (fails validation). -/
def exBadUpdate : UpdateInput :=
  { title := none, year := none, runtime := some (-5), genres := none }

theorem claim_C4_witness :
    (createMovieHandler 2024 [] 7 0 (.ok exBadCreate) =
      ([], failedValidationResponse
             (ValidateMovie 2024 Validator.new
                 (movieFromCreateInput exBadCreate)).errors)) ∧
    (updateMovieHandler 2024 [exMovie] [exMovie] (some 1) ""
        (.ok exBadUpdate) =
      ([exMovie], failedValidationResponse
             (ValidateMovie 2024 Validator.new
                 (applyUpdateInput exBadUpdate exMovie)).errors)) := by
  constructor
  · exact claim_C4_validateMovie.2.1 2024 [] 7 0 exBadCreate (by decide)
  · exact claim_C4_validateMovie.2.2 2024 [exMovie] [exMovie] (some 1) ""
      exBadUpdate 1 exMovie (by rfl) (by rfl) (by decide) (by decide)

/-- C5: `ValidateFilters` records no errors exactly when page is greater
than zero and at most 10,000,000, page_size is greater than zero and at
most 100, and sort is in the safelist; `listMoviesHandler` uses the
safelist {id, title, year, runtime, -id, -title, -year, -runtime} and
defaults page to 1, page_size to 20 and sort to `"id"` when the query
string omits them. -/
theorem claim_C5_validateFilters :
    (∀ f : Filters,
        (ValidateFilters Validator.new f).valid = true ↔
          (0 < f.page ∧ f.page ≤ 10000000 ∧
           0 < f.pageSize ∧ f.pageSize ≤ 100 ∧
           f.sort ∈ f.sortSafelist)) ∧
    movieSortSafelist =
      ["id", "title", "year", "runtime",
       "-id", "-title", "-year", "-runtime"] ∧
    (∀ qs : QueryString,
        (listMoviesInput qs).1.2.2.sortSafelist = movieSortSafelist) ∧
    (∀ qs : QueryString, qs.page = none →
        (listMoviesInput qs).1.2.2.page = 1) ∧
    (∀ qs : QueryString, qs.pageSize = none →
        (listMoviesInput qs).1.2.2.pageSize = 20) ∧
    (∀ qs : QueryString, qs.sort = none →
        (listMoviesInput qs).1.2.2.sort = "id") := by
  refine ⟨ValidateFilters_valid_iff, rfl, ?_, ?_, ?_, ?_⟩
  · intro qs
    rw [listMoviesInput_eq]
  · intro qs h
    rw [listMoviesInput_eq, h]
    rfl
  · intro qs h
    rw [listMoviesInput_eq, h]
    rfl
  · intro qs h
    rw [listMoviesInput_eq, h]
    rfl

theorem claim_C5_witness :
    (ValidateFilters Validator.new
        { page := 1, pageSize := 20, sort := "id",
          sortSafelist := movieSortSafelist }).valid = true ↔
      (0 < (1 : Int) ∧ (1 : Int) ≤ 10000000 ∧
       0 < (20 : Int) ∧ (20 : Int) ≤ 100 ∧
       "id" ∈ movieSortSafelist) := by
  exact claim_C5_validateFilters.1
    { page := 1, pageSize := 20, sort := "id",
      sortSafelist := movieSortSafelist }

theorem any_beq_iff (s : String) (l : List String) :
    (l.any (fun x => s == x)) = true ↔ s ∈ l := by
  simp only [List.any_eq_true, beq_iff_eq]
  constructor
  · rintro ⟨x, hx, rfl⟩
    exact hx
  · intro h
    exact ⟨s, h, rfl⟩

theorem sortColumn_eq_none_iff (f : Filters) :
    f.sortColumn = none ↔ f.sort ∉ f.sortSafelist := by
  unfold Filters.sortColumn
  by_cases h : (f.sortSafelist.any (fun safeValue => f.sort == safeValue)) = true
  · rw [if_pos h]
    have hmem := (any_beq_iff f.sort f.sortSafelist).1 h
    constructor
    · intro hsome
      exact (Option.some_ne_none _ hsome).elim
    · intro hno
      exact (hno hmem).elim
  · rw [if_neg h]
    simp only [true_iff]
    intro hmem
    exact h ((any_beq_iff f.sort f.sortSafelist).2 hmem)

/-- C9: `Filters.sortColumn` panics (modelled as `none`) exactly when
`Sort` is not in the safelist; when `Sort` is in the safelist (in
particular whenever `ValidateFilters` passed) the panic branch is
unreachable and `sortColumn` returns `Sort` with a single leading `"-"`
removed; `sortDirection` returns `"DESC"` exactly when `Sort` has a
leading `"-"` and `"ASC"` otherwise. -/
theorem claim_C9_sortColumn (f : Filters) :
    (f.sortColumn = none ↔ f.sort ∉ f.sortSafelist) ∧
    (f.sort ∈ f.sortSafelist →
      f.sortColumn = some (trimLeadingMinus f.sort)) ∧
    ((ValidateFilters Validator.new f).valid = true →
      f.sortColumn.isSome = true) ∧
    (hasLeadingMinus f.sort = true →
      trimLeadingMinus f.sort = String.mk f.sort.data.tail) ∧
    (hasLeadingMinus f.sort = false → trimLeadingMinus f.sort = f.sort) ∧
    (f.sortDirection = "DESC" ↔ hasLeadingMinus f.sort = true) ∧
    (f.sortDirection = "ASC" ↔ hasLeadingMinus f.sort = false) := by
  refine ⟨sortColumn_eq_none_iff f, ?_, ?_, ?_, ?_, ?_, ?_⟩
  · intro hmem
    unfold Filters.sortColumn
    rw [if_pos ((any_beq_iff f.sort f.sortSafelist).2 hmem)]
  · intro hvalid
    have hmem : f.sort ∈ f.sortSafelist :=
      ((ValidateFilters_valid_iff f).1 hvalid).2.2.2.2
    unfold Filters.sortColumn
    rw [if_pos ((any_beq_iff f.sort f.sortSafelist).2 hmem)]
    rfl
  · intro h
    unfold trimLeadingMinus
    rw [if_pos h]
  · intro h
    unfold trimLeadingMinus
    rw [h]
    rfl
  · unfold Filters.sortDirection
    by_cases h : hasLeadingMinus f.sort = true
    · rw [if_pos h]
      simp [h]
    · rw [if_neg h]
      simp only [Bool.not_eq_true] at h
      simp [h]
  · unfold Filters.sortDirection
    by_cases h : hasLeadingMinus f.sort = true
    · rw [if_pos h]
      simp [h]
    · rw [if_neg h]
      simp only [Bool.not_eq_true] at h
      simp [h]

theorem claim_C9_witness :
    let f : Filters :=
      { page := 1, pageSize := 20, sort := "-year",
        sortSafelist := movieSortSafelist }
    f.sortColumn = some (trimLeadingMinus "-year") ∧
    trimLeadingMinus "-year" = "year" ∧
    f.sortDirection = "DESC" := by
  intro f
  refine ⟨(claim_C9_sortColumn f).2.1 (by decide), by decide, ?_⟩
  exact (claim_C9_sortColumn f).2.2.2.2.2.1.2 (by decide)

theorem map_if_eq_self {p : Movie → Bool} {f : Movie → Movie} :
    ∀ (l : List Movie), (∀ r ∈ l, p r = false) →
      l.map (fun r => if p r then f r else r) = l := by
  intro l
  induction l with
  | nil => intro _; rfl
  | cons x xs ih =>
    intro h
    simp only [List.map_cons, h x (by simp), Bool.false_eq_true, if_false,
      List.cons.injEq, true_and]
    exact ih (fun r hr => h r (by simp [hr]))

theorem update_snd_conflict_iff (db : DB) (movie : Movie) :
    (MovieModel.Update db movie).2 = .error .editConflict ↔
      ¬ ∃ r ∈ db, r.id = movie.id ∧ r.version = movie.version := by
  unfold MovieModel.Update
  rcases hf : db.find? (fun r => r.id == movie.id && r.version == movie.version)
    with _ | r
  · simp only [hf]
    rw [List.find?_eq_none] at hf
    simp only [true_iff]
    rintro ⟨r, hr, h1, h2⟩
    exact hf r hr (by simp [h1, h2])
  · simp only [hf]
    have hp := List.find?_some hf
    have hm := List.mem_of_find?_eq_some hf
    simp only [Bool.and_eq_true, beq_iff_eq] at hp
    constructor
    · intro hcontra
      exact absurd hcontra (by simp)
    · intro hno
      exact (hno ⟨r, hm, hp.1, hp.2⟩).elim

theorem update_db_eq_of_conflict (db : DB) (movie : Movie)
    (h : (MovieModel.Update db movie).2 = .error .editConflict) :
    (MovieModel.Update db movie).1 = db := by
  unfold MovieModel.Update at h ⊢
  rcases hf : db.find? (fun r => r.id == movie.id && r.version == movie.version)
    with _ | r
  · simp only [hf]
    rw [List.find?_eq_none] at hf
    exact map_if_eq_self db (fun r hr => by
      have := hf r hr
      simp only [Bool.not_eq_true] at this
      exact this)
  · simp [hf] at h

theorem update_ok_version (db : DB) (movie m' : Movie)
    (h : (MovieModel.Update db movie).2 = .ok m') :
    m' = { movie with version := movie.version + 1 } := by
  unfold MovieModel.Update at h
  rcases hf : db.find? (fun r => r.id == movie.id && r.version == movie.version)
    with _ | r
  · simp [hf] at h
  · simp only [hf, Except.ok.injEq] at h
    have hp := List.find?_some hf
    simp only [Bool.and_eq_true, beq_iff_eq] at hp
    rw [← h, hp.2]

theorem update_ok_iff (db : DB) (movie : Movie) :
    (MovieModel.Update db movie).2 =
        .ok { movie with version := movie.version + 1 } ↔
      ∃ r ∈ db, r.id = movie.id ∧ r.version = movie.version := by
  unfold MovieModel.Update
  rcases hf : db.find? (fun r => r.id == movie.id && r.version == movie.version)
    with _ | r
  · simp only [hf]
    rw [List.find?_eq_none] at hf
    constructor
    · intro hcontra
      exact absurd hcontra (by simp)
    · rintro ⟨r, hr, h1, h2⟩
      exact (hf r hr (by simp [h1, h2])).elim
  · simp only [hf]
    have hp := List.find?_some hf
    have hm := List.mem_of_find?_eq_some hf
    simp only [Bool.and_eq_true, beq_iff_eq] at hp
    constructor
    · intro _
      exact ⟨r, hm, hp.1, hp.2⟩
    · intro _
      simp [hp.2]

/-- C1: optimistic locking on update: the UPDATE statement's
`WHERE id = $5 AND version = $6` clause matches a row exactly when both the
id and the expected version match; when no row matches (the stored version
differs or the record was deleted) `Update` returns `ErrEditConflict` and
the stored table is unchanged, and `updateMovieHandler` maps that error to
the edit-conflict response. -/
theorem claim_C1_optimisticLocking :
    (∀ (db : DB) (movie : Movie),
        (MovieModel.Update db movie).2 = .error .editConflict ↔
          ¬ ∃ r ∈ db, r.id = movie.id ∧ r.version = movie.version) ∧
    (∀ (db : DB) (movie : Movie),
        (MovieModel.Update db movie).2 = .error .editConflict →
        (MovieModel.Update db movie).1 = db) ∧
    (∀ (currentYear : Int) (dbGet dbUpd : DB) (idParam : Option Int)
        (xv : String) (input : UpdateInput) (id : Int) (movie : Movie),
        readIDParam idParam = .ok id →
        (MovieModel.Get dbGet id).1 = .ok movie →
        ¬(xv ≠ "" ∧ formatBase32 movie.version ≠ xv) →
        (ValidateMovie currentYear Validator.new
            (applyUpdateInput input movie)).valid = true →
        (MovieModel.Update dbUpd (applyUpdateInput input movie)).2 =
          .error .editConflict →
        updateMovieHandler currentYear dbGet dbUpd idParam xv (.ok input) =
          (dbUpd, editConflictResponse)) := by
  refine ⟨update_snd_conflict_iff, update_db_eq_of_conflict, ?_⟩
  intro currentYear dbGet dbUpd idParam xv input id movie h1 h2 h3 h4 h5
  have hdb := update_db_eq_of_conflict dbUpd (applyUpdateInput input movie) h5
  have hupd : MovieModel.Update dbUpd (applyUpdateInput input movie) =
      (dbUpd, .error .editConflict) := by
    rw [Prod.ext_iff]
    exact ⟨hdb, h5⟩
  simp only [updateMovieHandler, h1, h2, if_neg h3, h4, if_true, hupd]

/-- A second copy of `exMovie` at version 2: the state after a concurrent
request committed an update in the race window. -/
def exMovieV2 : Movie := { exMovie with version := 2 }

/-- An update request body carrying no fields: every field of the fetched
movie is kept. -/
def exNoopUpdate : UpdateInput :=
  { title := none, year := none, runtime := none, genres := none }

theorem claim_C1_witness :
    ((MovieModel.Update [exMovieV2] exMovie).2 = .error .editConflict ↔
      ¬ ∃ r ∈ [exMovieV2], r.id = exMovie.id ∧
          r.version = exMovie.version) ∧
    updateMovieHandler 2024 [exMovie] [exMovieV2] (some 1) ""
        (.ok exNoopUpdate) =
      ([exMovieV2], editConflictResponse) := by
  constructor
  · exact claim_C1_optimisticLocking.1 [exMovieV2] exMovie
  · exact claim_C1_optimisticLocking.2.2 2024 [exMovie] [exMovieV2]
      (some 1) "" exNoopUpdate 1 exMovie (by rfl) (by rfl) (by decide)
      (by decide) (by rfl)

/-- C3: every movie's version starts at 1 on insert (the column default
scanned back by `RETURNING`), every successful `Update` increments the
stored version by exactly 1 (`SET version = version + 1`) and writes the
new version back into the struct, and the version check is a per-request
compare-and-swap: the update succeeds exactly when a stored row carries
both the id and the expected version. -/
theorem claim_C3_versioning :
    (∀ (db : DB) (nextId : Int) (now : Nat) (m : Movie),
        (MovieModel.Insert db nextId now m).2.version = 1 ∧
        (MovieModel.Insert db nextId now m).1 =
          db ++ [MovieModel.insertDefaults nextId now m] ∧
        (MovieModel.insertDefaults nextId now m).version = 1) ∧
    (∀ (db : DB) (m m' : Movie),
        (MovieModel.Update db m).2 = .ok m' →
        m' = { m with version := m.version + 1 }) ∧
    (∀ (db : DB) (m : Movie),
        (MovieModel.Update db m).2 =
            .ok { m with version := m.version + 1 } ↔
          ∃ r ∈ db, r.id = m.id ∧ r.version = m.version) ∧
    (∀ (db : DB) (m r : Movie),
        r ∈ db → r.id = m.id → r.version = m.version →
        MovieModel.updatedRow m r ∈ (MovieModel.Update db m).1 ∧
        (MovieModel.updatedRow m r).version = r.version + 1) := by
  refine ⟨?_, update_ok_version, update_ok_iff, ?_⟩
  · intro db nextId now m
    exact ⟨rfl, rfl, rfl⟩
  · intro db m r hr h1 h2
    refine ⟨?_, rfl⟩
    unfold MovieModel.Update
    rcases hf : db.find? (fun x => x.id == m.id && x.version == m.version)
      with _ | q
    · rw [List.find?_eq_none] at hf
      exact absurd
        (by simp [h1, h2] : (r.id == m.id && r.version == m.version) = true)
        (hf r hr)
    · simp only [hf]
      have hrw : MovieModel.updatedRow m r =
          (fun x => if (x.id == m.id && x.version == m.version) = true
                    then MovieModel.updatedRow m x else x) r := by
        simp [h1, h2]
      rw [hrw]
      exact List.mem_map_of_mem _ hr

theorem claim_C3_witness :
    ((MovieModel.Insert [] 5 99 exMovie).2.version = 1) ∧
    ((MovieModel.Update [exMovie] exMovie).2 =
      .ok { exMovie with version := exMovie.version + 1 }) ∧
    (MovieModel.updatedRow exMovie exMovie ∈
      (MovieModel.Update [exMovie] exMovie).1) := by
  refine ⟨(claim_C3_versioning.1 [] 5 99 exMovie).1, ?_, ?_⟩
  · exact (claim_C3_versioning.2.2.1 [exMovie] exMovie).2
      ⟨exMovie, by simp, rfl, rfl⟩
  · exact (claim_C3_versioning.2.2.2 [exMovie] exMovie exMovie
      (by simp) rfl rfl).1

theorem countP_id_eq_zero_iff (db : DB) (id : Int) :
    db.countP (fun r => r.id == id) = 0 ↔ ¬ ∃ r ∈ db, r.id = id := by
  rw [List.countP_eq_zero]
  constructor
  · rintro h ⟨r, hr, rfl⟩
    exact h r hr (by simp)
  · intro h r hr hb
    simp only [beq_iff_eq] at hb
    exact h ⟨r, hr, hb⟩

/-- C8: for every id below 1, `Get` returns `ErrRecordNotFound` and
`Delete` returns `ErrRecordNotFound` without issuing any database query
(query count 0); for id at least 1, `Delete` returns `ErrRecordNotFound`
exactly when the DELETE statement affected zero rows; and the delete
handler answers 404 Not Found precisely for non-positive or absent IDs. -/
theorem claim_C8_recordNotFound :
    (∀ (db : DB) (id : Int), id < 1 →
        MovieModel.Get db id = (.error .recordNotFound, 0)) ∧
    (∀ (db : DB) (id : Int), id < 1 →
        MovieModel.Delete db id = (db, .error .recordNotFound, 0)) ∧
    (∀ (db : DB) (id : Int), 1 ≤ id →
        ((MovieModel.Delete db id).2.1 = .error .recordNotFound ↔
          db.countP (fun r => r.id == id) = 0)) ∧
    (∀ (db : DB) (idParam : Option Int),
        (deleteMovieHandler db idParam).2 = notFoundResponse ↔
          (idParam = none ∨
           ∃ id, idParam = some id ∧
             (id < 1 ∨ ¬ ∃ r ∈ db, r.id = id))) := by
  refine ⟨?_, ?_, ?_, ?_⟩
  · intro db id h
    unfold MovieModel.Get
    rw [if_pos h]
  · intro db id h
    unfold MovieModel.Delete
    rw [if_pos h]
  · intro db id h
    unfold MovieModel.Delete
    rw [if_neg (by omega : ¬ id < 1)]
    by_cases hc : db.countP (fun r => r.id == id) = 0
    · simp [hc]
    · simp [hc]
  · intro db idParam
    rcases idParam with _ | id
    · simp [deleteMovieHandler, readIDParam]
    · by_cases hlt : id < 1
      · simp only [deleteMovieHandler, readIDParam, if_pos hlt]
        simp [hlt]
      · simp only [deleteMovieHandler, readIDParam, if_neg hlt]
        unfold MovieModel.Delete
        rw [if_neg hlt]
        by_cases hc : db.countP (fun r => r.id == id) = 0
        · simp only [hc, Nat.zero_ne_one]
          simp only [if_pos (by simp : ((0 : Nat) == 0) = true)]
          simp only [true_iff]
          refine Or.inr ⟨id, rfl, Or.inr ?_⟩
          exact (countP_id_eq_zero_iff db id).1 hc
        · have hcb : (db.countP (fun r => r.id == id) == 0) = false := by
            simpa using hc
          simp only [hcb, Bool.false_eq_true, if_false]
          constructor
          · intro hcontra
            exact absurd hcontra (by simp [notFoundResponse])
          · rintro (hnone | ⟨id2, hid2, hcase⟩)
            · exact absurd hnone (by simp)
            · simp only [Option.some.injEq] at hid2
              subst hid2
              rcases hcase with h1 | h2
              · exact absurd h1 hlt
              · exact absurd ((countP_id_eq_zero_iff db id).2 h2) hc

theorem claim_C8_witness :
    (MovieModel.Get [exMovie] 0 = (.error .recordNotFound, 0)) ∧
    (MovieModel.Delete [exMovie] (-3) =
      ([exMovie], .error .recordNotFound, 0)) ∧
    ((MovieModel.Delete [exMovie] 2).2.1 = .error .recordNotFound ↔
      List.countP (fun r => r.id == 2) [exMovie] = 0) ∧
    ((deleteMovieHandler [exMovie] (some 2)).2 = notFoundResponse ↔
      ((some 2 : Option Int) = none ∨
       ∃ id, (some 2 : Option Int) = some id ∧
         (id < 1 ∨ ¬ ∃ r ∈ [exMovie], r.id = id))) := by
  refine ⟨claim_C8_recordNotFound.1 [exMovie] 0 (by decide),
          claim_C8_recordNotFound.2.1 [exMovie] (-3) (by decide),
          claim_C8_recordNotFound.2.2.1 [exMovie] 2 (by decide),
          claim_C8_recordNotFound.2.2.2 [exMovie] (some 2)⟩

/-- C7: for every request whose wrapped handler panics, `recoverPanic`
recovers the panic, sets the `Connection: close` response header and sends
the 500 server-error response instead of letting the panic propagate;
requests whose handler does not panic pass through unchanged. -/
theorem claim_C7_recoverPanic {α : Type} (next : α → HandlerResult)
    (req : α) :
    (∀ msg, next req = .panicked msg →
        recoverPanic next req =
          .done ⟨500, [("Connection", "close")], .serverErrorMsg⟩) ∧
    (∀ r, next req = .done r → recoverPanic next req = .done r) ∧
    (∃ r, recoverPanic next req = .done r) := by
  refine ⟨?_, ?_, ?_⟩
  · intro msg h
    unfold recoverPanic
    rw [h]
    rfl
  · intro r h
    unfold recoverPanic
    rw [h]
  · unfold recoverPanic
    rcases next req with r | msg
    · exact ⟨r, rfl⟩
    · exact ⟨_, rfl⟩

/-- A handler that always panics, and one that always answers 200, for the
witness. -/
def panickyHandler : Unit → HandlerResult :=
  fun _ => .panicked "boom"

def okHandler : Unit → HandlerResult :=
  fun _ => .done ⟨200, [], .messageEnvelope "ok"⟩

theorem claim_C7_witness :
    (recoverPanic panickyHandler () =
      .done ⟨500, [("Connection", "close")], .serverErrorMsg⟩) ∧
    (recoverPanic okHandler () = .done ⟨200, [], .messageEnvelope "ok"⟩) := by
  constructor
  · exact (claim_C7_recoverPanic panickyHandler ()).1 "boom" rfl
  · exact (claim_C7_recoverPanic okHandler ()).2.1
      ⟨200, [], .messageEnvelope "ok"⟩ rfl

theorem advance_zero_of_le (t : ℚ) (ht : t ≤ 4) :
    (RateLimiter.mk 2 4 t).advance 0 = ⟨2, 4, t⟩ := by
  unfold RateLimiter.advance
  simp only [RateLimiter.mk.injEq, true_and]
  norm_num
  exact ht

theorem rateLimitServe_burst {α : Type} (next : α → HandlerResult)
    (hnext : ∀ r, next r ≠ .done rateLimitExceededResponse) :
    ∀ (reqs : List α) (t : Nat), t ≤ 4 →
      ((rateLimitServe next ⟨2, 4, (t : ℚ)⟩
          (reqs.map (fun r => ((0 : ℚ), r)))).2.countP
        (fun res => res == .done rateLimitExceededResponse)) =
      reqs.length - min reqs.length t := by
  intro reqs
  induction reqs with
  | nil =>
    intro t ht
    simp [rateLimitServe]
  | cons r rs ih =>
    intro t ht
    have hadv : (RateLimiter.mk 2 4 ((t : Nat) : ℚ)).advance 0 =
        ⟨2, 4, (t : ℚ)⟩ :=
      advance_zero_of_le _ (by exact_mod_cast ht)
    by_cases h1 : 1 ≤ t
    · have hallow : (RateLimiter.mk 2 4 ((t : Nat) : ℚ)).allow =
          (true, ⟨2, 4, ((t - 1 : Nat) : ℚ)⟩) := by
        unfold RateLimiter.allow
        rw [if_pos (show (1 : ℚ) ≤ ((t : Nat) : ℚ) by exact_mod_cast h1)]
        have : ((t : Nat) : ℚ) - 1 = ((t - 1 : Nat) : ℚ) := by
          push_cast [h1]
          ring
        rw [this]
      have hres : (next r == .done rateLimitExceededResponse) = false := by
        simpa using hnext r
      simp only [List.map_cons, rateLimitServe, hadv, rateLimit, hallow,
        if_true, List.countP_cons, hres, Bool.false_eq_true, if_false,
        Nat.add_zero]
      rw [ih (t - 1) (by omega)]
      have hlen : min (rs.length + 1) t = min rs.length (t - 1) + 1 := by
        omega
      simp only [List.length_cons, hlen]
      omega
    · have ht0 : t = 0 := by omega
      subst ht0
      have hallow : (RateLimiter.mk 2 4 ((0 : Nat) : ℚ)).allow =
          (false, ⟨2, 4, ((0 : Nat) : ℚ)⟩) := by
        unfold RateLimiter.allow
        rw [if_neg (by norm_num)]
      simp only [List.map_cons, rateLimitServe, hadv, rateLimit, hallow,
        Bool.false_eq_true, if_false, List.countP_cons]
      rw [ih 0 (by omega)]
      simp

/-- C6: the rate-limiting middleware is a token bucket created by
`rate.NewLimiter(2, 4)` — 2 requests per second on average, bursts of at
most 4 — shared by every request of the server: a request is forwarded to
the wrapped handler exactly when `limiter.Allow()` returns true, and every
request arriving when the bucket is empty receives the
rate-limit-exceeded response and never reaches the wrapped handler (the
result is the same for every wrapped handler); in a simultaneous burst of
`n` requests against the fresh limiter, exactly `n - min n 4` of them are
rejected. -/
theorem claim_C6_rateLimit :
    (apiRateLimiter.ratePerSec = 2 ∧ apiRateLimiter.burst = 4 ∧
     apiRateLimiter.tokens = 4) ∧
    (∀ {α : Type} (next : α → HandlerResult) (l : RateLimiter) (req : α),
        (l.allow.1 = true → rateLimit next l req = (l.allow.2, next req)) ∧
        (l.tokens < 1 →
          l.allow.1 = false ∧
          ∀ next2 : α → HandlerResult,
            rateLimit next2 l req = (l, .done rateLimitExceededResponse))) ∧
    (∀ {α : Type} (next : α → HandlerResult) (reqs : List α),
        (∀ r, next r ≠ .done rateLimitExceededResponse) →
        ((rateLimitServe next apiRateLimiter
            (reqs.map (fun r => ((0 : ℚ), r)))).2.countP
          (fun res => res == .done rateLimitExceededResponse)) =
        reqs.length - min reqs.length 4) := by
  refine ⟨⟨rfl, rfl, rfl⟩, ?_, ?_⟩
  · intro α next l req
    constructor
    · intro h
      unfold rateLimit
      rcases hl : l.allow with ⟨ok, l2⟩
      rw [hl] at h
      simp only at h
      subst h
      simp [hl]
    · intro h
      have hfalse : l.allow = (false, l) := by
        unfold RateLimiter.allow
        rw [if_neg (by exact absurd · (by push_neg; exact h))]
      refine ⟨by rw [hfalse], ?_⟩
      intro next2
      unfold rateLimit
      rw [hfalse]
      simp
  · intro α next reqs hnext
    have h4 : apiRateLimiter = ⟨2, 4, ((4 : Nat) : ℚ)⟩ := by
      unfold apiRateLimiter RateLimiter.mkNew
      norm_num
    rw [h4]
    exact rateLimitServe_burst next hnext reqs 4 (by omega)

theorem claim_C6_witness :
    (rateLimit okHandler ⟨2, 4, 0⟩ () =
      (⟨2, 4, 0⟩, .done rateLimitExceededResponse)) ∧
    ((rateLimitServe okHandler apiRateLimiter
        ([(), (), (), (), (), ()].map (fun r => ((0 : ℚ), r)))).2.countP
      (fun res => res == .done rateLimitExceededResponse)) =
      ([(), (), (), (), (), ()] : List Unit).length -
        min ([(), (), (), (), (), ()] : List Unit).length 4 := by
  constructor
  · exact ((claim_C6_rateLimit.2.1 okHandler ⟨2, 4, 0⟩ ()).2
      (by norm_num)).2 okHandler
  · exact claim_C6_rateLimit.2.2 okHandler [(), (), (), (), (), ()]
      (fun r => by simp [okHandler, rateLimitExceededResponse])

theorem insertById_perm (m : Movie) (l : List Movie) :
    (insertById m l).Perm (m :: l) := by
  induction l with
  | nil => simp [insertById]
  | cons x xs ih =>
    unfold insertById
    by_cases h : m.id ≤ x.id
    · rw [if_pos h]
    · rw [if_neg h]
      exact (ih.cons x).trans (List.Perm.swap m x xs)

theorem orderById_perm (l : List Movie) : (orderById l).Perm l := by
  induction l with
  | nil => simp [orderById]
  | cons x xs ih =>
    unfold orderById
    exact (insertById_perm x (orderById xs)).trans (ih.cons x)

theorem insertById_sorted (m : Movie) (l : List Movie)
    (h : l.Pairwise (fun a b => a.id ≤ b.id)) :
    (insertById m l).Pairwise (fun a b => a.id ≤ b.id) := by
  induction l with
  | nil => simp [insertById]
  | cons x xs ih =>
    rcases List.pairwise_cons.1 h with ⟨hx, hxs⟩
    unfold insertById
    by_cases hle : m.id ≤ x.id
    · rw [if_pos hle]
      refine List.pairwise_cons.2 ⟨?_, h⟩
      intro b hb
      rcases List.mem_cons.1 hb with rfl | hb2
      · exact hle
      · exact le_trans hle (hx b hb2)
    · rw [if_neg hle]
      push_neg at hle
      refine List.pairwise_cons.2 ⟨?_, ih hxs⟩
      intro b hb
      have hb2 : b ∈ m :: xs := (insertById_perm m xs).mem_iff.1 hb
      rcases List.mem_cons.1 hb2 with rfl | hb3
      · exact le_of_lt hle
      · exact hx b hb3

theorem orderById_sorted (l : List Movie) :
    (orderById l).Pairwise (fun a b => a.id ≤ b.id) := by
  induction l with
  | nil => simp [orderById]
  | cons x xs ih =>
    unfold orderById
    exact insertById_sorted x (orderById xs) ih

/-- A movie that does not match the title filter of the counterexample. -/
def listMovieA : Movie :=
  { id := 1, createdAt := 0, title := "Beta", year := 2000, runtime := 100,
    genres := some ["drama"], version := 1 }

/-- A second non-matching movie, so the result exceeds page_size 1. -/
def listMovieB : Movie :=
  { id := 2, createdAt := 0, title := "Gamma", year := 2001, runtime := 90,
    genres := some ["comedy"], version := 1 }

/-- Validated filters requesting one record per page sorted by title. -/
def exListFilters : Filters :=
  { page := 1, pageSize := 1, sort := "title",
    sortSafelist := movieSortSafelist }

/-- C2 counterexample: with validated filters requesting title filter
"Alpha", sort by title, and page_size 1, `GetAll` returns both stored
movies — neither of which matches the title filter — in id order, and
`listMoviesHandler` (which never queries the store) answers by echoing the
parsed input rather than any movie list. The claim that the produced set
is filtered by title, ordered by the sort parameter, and restricted to
page_size records is therefore false at this input. -/
theorem claim_C2_counterexample :
    (MovieModel.GetAll [listMovieB, listMovieA] "Alpha" [] exListFilters =
      .ok [listMovieA, listMovieB]) ∧
    (ValidateFilters Validator.new exListFilters).valid = true ∧
    exListFilters.pageSize = 1 ∧
    [listMovieA, listMovieB].length = 2 ∧
    listMovieA.title ≠ "Alpha" ∧ listMovieB.title ≠ "Alpha" ∧
    (listMoviesHandler
        { title := some "Alpha", genres := none, page := some "1",
          pageSize := some "1", sort := some "title" } =
      ⟨200, [], .inputEcho "Alpha" []
        { page := 1, pageSize := 1, sort := "title",
          sortSafelist := movieSortSafelist }⟩) := by
  refine ⟨by rfl, by decide, rfl, rfl, by decide, by decide, by decide⟩

/-- C2 (amended): `listMoviesHandler` parses and validates the title,
genres, page, page_size and sort parameters but performs no store access:
on success it echoes the parsed input, otherwise it sends the
failed-validation response. `MovieModel.GetAll` ignores its title, genres
and filter parameters entirely and returns every stored movie ordered by
ascending id (a sorted permutation of the table) — no title filtering, no
dynamic ordering, no LIMIT/OFFSET pagination is applied. -/
theorem claim_C2_amended :
    (∀ (db : DB) (title title2 : String) (genres genres2 : List String)
        (filters filters2 : Filters),
        MovieModel.GetAll db title genres filters = .ok (orderById db) ∧
        MovieModel.GetAll db title genres filters =
          MovieModel.GetAll db title2 genres2 filters2) ∧
    (∀ db : DB,
        (orderById db).Perm db ∧
        (orderById db).Pairwise (fun a b => a.id ≤ b.id)) ∧
    (∀ qs : QueryString,
        (∃ t g f, listMoviesHandler qs = ⟨200, [], .inputEcho t g f⟩) ∨
        (∃ errs, listMoviesHandler qs = failedValidationResponse errs)) := by
  refine ⟨?_, ?_, ?_⟩
  · intro db title title2 genres genres2 filters filters2
    exact ⟨rfl, rfl⟩
  · intro db
    exact ⟨orderById_perm db, orderById_sorted db⟩
  · intro qs
    unfold listMoviesHandler
    by_cases h : (ValidateFilters (listMoviesInput qs).2
        (listMoviesInput qs).1.2.2).valid = true
    · rw [if_pos h]
      exact Or.inl ⟨_, _, _, rfl⟩
    · rw [if_neg h]
      exact Or.inr ⟨_, rfl⟩

/-- Little-endian evaluation of digit values in base `b`. -/
def evalRev (b : Nat) : List Nat → Nat
  | [] => 0
  | d :: ds => d + b * evalRev b ds

theorem evalRev_digitsRev10 (n : Nat) :
    evalRev 10 (digitsRev10 n) = n := by
  induction n using Nat.strong_induction_on with
  | _ n ih =>
    rw [digitsRev10]
    by_cases h : n < 10
    · rw [dif_pos h]
      simp [evalRev]
    · rw [dif_neg h]
      simp only [evalRev]
      rw [ih (n / 10) (Nat.div_lt_self (by omega) (by omega))]
      omega

theorem evalRev_digitsRev32 (n : Nat) :
    evalRev 32 (digitsRev32 n) = n := by
  induction n using Nat.strong_induction_on with
  | _ n ih =>
    rw [digitsRev32]
    by_cases h : n < 32
    · rw [dif_pos h]
      simp [evalRev]
    · rw [dif_neg h]
      simp only [evalRev]
      rw [ih (n / 32) (Nat.div_lt_self (by omega) (by omega))]
      omega

theorem digitsRev10_lt (n : Nat) : ∀ d ∈ digitsRev10 n, d < 10 := by
  induction n using Nat.strong_induction_on with
  | _ n ih =>
    rw [digitsRev10]
    by_cases h : n < 10
    · rw [dif_pos h]
      intro d hd
      simp only [List.mem_singleton] at hd
      omega
    · rw [dif_neg h]
      intro d hd
      rcases List.mem_cons.1 hd with rfl | hd2
      · omega
      · exact ih (n / 10) (Nat.div_lt_self (by omega) (by omega)) d hd2

theorem digitsRev32_lt (n : Nat) : ∀ d ∈ digitsRev32 n, d < 32 := by
  induction n using Nat.strong_induction_on with
  | _ n ih =>
    rw [digitsRev32]
    by_cases h : n < 32
    · rw [dif_pos h]
      intro d hd
      simp only [List.mem_singleton] at hd
      omega
    · rw [dif_neg h]
      intro d hd
      rcases List.mem_cons.1 hd with rfl | hd2
      · omega
      · exact ih (n / 32) (Nat.div_lt_self (by omega) (by omega)) d hd2

theorem digitChar_inj : ∀ a < 32, ∀ b < 32,
    digitChar a = digitChar b → a = b := by
  decide

theorem map_digitChar_inj : ∀ (a b : List Nat),
    (∀ d ∈ a, d < 32) → (∀ d ∈ b, d < 32) →
    a.map digitChar = b.map digitChar → a = b := by
  intro a
  induction a with
  | nil =>
    intro b _ _ h
    cases b with
    | nil => rfl
    | cons e es => simp at h
  | cons d ds ih =>
    intro b ha hb h
    cases b with
    | nil => simp at h
    | cons e es =>
      simp only [List.map_cons, List.cons.injEq] at h
      have hde : d = e :=
        digitChar_inj d (ha d (by simp)) e (hb e (by simp)) h.1
      have hrest := ih es (fun x hx => ha x (by simp [hx]))
        (fun x hx => hb x (by simp [hx])) h.2
      rw [hde, hrest]

theorem evalRev_le (ds : List Nat) : evalRev 10 ds ≤ evalRev 32 ds := by
  induction ds with
  | nil => simp [evalRev]
  | cons d ds ih =>
    simp only [evalRev]
    have h1 : 10 * evalRev 10 ds ≤ 10 * evalRev 32 ds :=
      Nat.mul_le_mul_left 10 ih
    have h2 : 10 * evalRev 32 ds ≤ 32 * evalRev 32 ds :=
      Nat.mul_le_mul_right _ (by omega)
    omega

theorem evalRev_lt (d : Nat) (ds : List Nat)
    (h : 1 ≤ evalRev 10 ds) :
    evalRev 10 (d :: ds) < evalRev 32 (d :: ds) := by
  simp only [evalRev]
  have hle : evalRev 10 ds ≤ evalRev 32 ds := evalRev_le ds
  have h1 : 10 * evalRev 10 ds < 32 * evalRev 10 ds :=
    (Nat.mul_lt_mul_right (show 0 < evalRev 10 ds by omega)).2 (by omega)
  have h2 : 32 * evalRev 10 ds ≤ 32 * evalRev 32 ds :=
    Nat.mul_le_mul_left 32 hle
  omega

theorem formatBase10_eq_formatBase32_iff (n : Nat) :
    formatBase10 n = formatBase32 n ↔ n < 10 := by
  constructor
  · intro h
    by_contra hge
    push_neg at hge
    have hl : (digitsRev10 n).reverse.map digitChar =
        (digitsRev32 n).reverse.map digitChar := by
      have := congrArg String.data h
      simpa [formatBase10, formatBase32] using this
    have hds : digitsRev10 n = digitsRev32 n := by
      have hrev : (digitsRev10 n).reverse = (digitsRev32 n).reverse :=
        map_digitChar_inj _ _
          (fun d hd => by
            have := digitsRev10_lt n d (List.mem_reverse.1 hd)
            omega)
          (fun d hd => digitsRev32_lt n d (List.mem_reverse.1 hd))
          hl
      exact List.reverse_injective hrev
    have hev10 : evalRev 10 (digitsRev10 n) = n := evalRev_digitsRev10 n
    have hev32 : evalRev 32 (digitsRev10 n) = n := by
      rw [hds]
      exact evalRev_digitsRev32 n
    have hcons : digitsRev10 n = n % 10 :: digitsRev10 (n / 10) := by
      rw [digitsRev10]
      rw [dif_neg (by omega)]
    have htail : 1 ≤ evalRev 10 (digitsRev10 (n / 10)) := by
      rw [evalRev_digitsRev10]
      omega
    have hlt := evalRev_lt (n % 10) (digitsRev10 (n / 10)) htail
    rw [← hcons] at hlt
    omega
  · intro h
    unfold formatBase10 formatBase32
    rw [digitsRev10, digitsRev32, dif_pos h, dif_pos (by omega)]

/-- C10: when an update request carries a non-empty `X-Expected-Version`
header, `updateMovieHandler` answers the edit-conflict response — before
reading the request body, so the result is independent of the body —
exactly when the header differs from the movie's current version formatted
in base 32 by `strconv.FormatInt(int64(movie.Version), 32)`; in
particular, a client sending the decimal version string matches only for
versions below 10. -/
theorem claim_C10_expectedVersion :
    (∀ (currentYear : Int) (dbGet dbUpd : DB) (idParam : Option Int)
        (xv : String) (id : Int) (movie : Movie),
        readIDParam idParam = .ok id →
        (MovieModel.Get dbGet id).1 = .ok movie →
        xv ≠ "" →
        ((formatBase32 movie.version ≠ xv →
            ∀ body body2 : Except Unit UpdateInput,
              updateMovieHandler currentYear dbGet dbUpd idParam xv body =
                (dbUpd, editConflictResponse) ∧
              updateMovieHandler currentYear dbGet dbUpd idParam xv body =
                updateMovieHandler currentYear dbGet dbUpd idParam xv
                  body2) ∧
         (formatBase32 movie.version = xv →
            updateMovieHandler currentYear dbGet dbUpd idParam xv
                (.error ()) = (dbUpd, badRequestResponse)))) ∧
    (∀ n : Nat, formatBase10 n = formatBase32 n ↔ n < 10) := by
  refine ⟨?_, formatBase10_eq_formatBase32_iff⟩
  intro currentYear dbGet dbUpd idParam xv id movie h1 h2 hxv
  constructor
  · intro hne body body2
    constructor
    · simp only [updateMovieHandler, h1, h2, if_pos (And.intro hxv hne)]
    · simp only [updateMovieHandler, h1, h2, if_pos (And.intro hxv hne)]
  · intro heq
    have hno : ¬(xv ≠ "" ∧ formatBase32 movie.version ≠ xv) := by
      rintro ⟨_, hne⟩
      exact hne heq
    simp only [updateMovieHandler, h1, h2, if_neg hno]

/-- `exMovie` at stored version 10, whose base-32 rendering is `"a"`. -/
def exMovieV10 : Movie := { exMovie with version := 10 }

theorem formatBase32_ten : formatBase32 10 = "a" := by
  unfold formatBase32
  rw [digitsRev32, dif_pos (by omega : (10 : Nat) < 32)]
  rfl

theorem claim_C10_witness :
    (updateMovieHandler 2024 [exMovieV10] [exMovieV10] (some 1) "10"
        (.ok exNoopUpdate) = ([exMovieV10], editConflictResponse)) ∧
    (formatBase10 10 = formatBase32 10 ↔ 10 < 10) ∧
    (formatBase10 3 = formatBase32 3 ↔ 3 < 10) := by
  refine ⟨?_, claim_C10_expectedVersion.2 10, claim_C10_expectedVersion.2 3⟩
  exact ((claim_C10_expectedVersion.1 2024 [exMovieV10] [exMovieV10]
      (some 1) "10" 1 exMovieV10 (by rfl) (by rfl) (by decide)).1
      (show formatBase32 10 ≠ "10" by rw [formatBase32_ten]; decide)
      (.ok exNoopUpdate) (.error ())).1

end Greenlight
